import Mathlib

/-!
Verification of the ai-vibes-vid-gen pipeline: a shallow embedding of the
orchestrator, the stage adapters, the duration reconciler, the subtitle
formatter and the publisher, with theorems about the specified properties.

Conventions of the embedding:
- TypeScript numbers are modelled as exact rationals (ℚ); `Math.floor` is
  `Int.floor`, `Math.ceil` is `Int.ceil`, and the JS `%` operator (sign of
  the dividend, truncated division) is `jsMod`.
- Effectful external calls (ffprobe, ffmpeg, HTTP requests, edge-tts) are
  modelled by passing their outcome (`Except String _` or `Option _`) as an
  explicit argument; a rejected promise is an `Except.error`.
- Promise-returning methods become `Except String α`-valued functions;
  methods whose every code path resolves become total functions.
-/

namespace VidGen

/-- `src/common/interfaces/video-generation.interface.ts`: `VisualPrompt`. -/
structure VisualPrompt where
  index : ℕ
  prompt : String
  duration : ℚ
deriving DecidableEq

/-- `TimestampSegment` from the interfaces file; `end` is a Lean keyword,
written `«end»`. -/
structure TimestampSegment where
  start : ℚ
  «end» : ℚ
  text : String
deriving DecidableEq

/-- `ScriptData` from the interfaces file. -/
structure ScriptData where
  script : String
  visual_prompts : List VisualPrompt
  timestamps : List TimestampSegment
deriving DecidableEq

/-- `MediaFiles` from the interfaces file. -/
structure MediaFiles where
  audioPath : String
  videoPaths : List String
  subtitlePath : String
deriving DecidableEq

/-- `UploadUrls` from the interfaces file: two optional platform URLs.
The empty mapping `{}` is `⟨none, none⟩`. -/
structure UploadUrls where
  youtube : Option String := none
  tiktok : Option String := none
deriving DecidableEq

/-- `FilesystemService.getTempPath(filename)`: joins the temp directory and
the file name (`path.join`). -/
def getTempPath (tempDir filename : String) : String :=
  tempDir ++ "/" ++ filename

/-! ## Duration reconciler (`EditorService`, editor.module.ts)

`loopVideoToMatchAudio` probes the audio, then the video; on either probe
error it resolves with the original video path.  With both durations it
trims when `videoDuration >= audioDuration` and otherwise calls `loopVideo`,
which re-probes the video (rejecting on a probe error), computes
`loopCount = Math.ceil(targetDuration / videoDuration)` and issues
`-stream_loop (loopCount - 1)` plus `setDuration targetDuration`. -/

/-- Outcome of the reconciliation step for one video/audio pair. -/
inductive ReconcileResult where
  /-- The original video path is resolved unchanged (probe error branch of
  `loopVideoToMatchAudio`). -/
  | original : ReconcileResult
  /-- `trimVideo`: the video is truncated to `duration` seconds; no loop
  instruction is issued. -/
  | trimmed (duration : ℚ) : ReconcileResult
  /-- `loopVideo`: `-stream_loop extraRepeats` (the source is repeated
  `extraRepeats` additional times) followed by truncation to `truncateTo`. -/
  | looped (extraRepeats : ℤ) (truncateTo : ℚ) : ReconcileResult
  /-- A rejected promise: the error propagates to the caller. -/
  | probeError : ReconcileResult
deriving DecidableEq

/-- `EditorService.loopVideo(videoPath, targetDuration, jobId)`.
`videoProbe` is the outcome of its own `ffprobe` call on the video; on a
probe error the promise REJECTS (`reject(err)`). -/
def loopVideo (videoProbe : Option ℚ) (targetDuration : ℚ) : ReconcileResult :=
  match videoProbe with
  | none => .probeError
  | some videoDuration =>
      let loopCount : ℤ := ⌈targetDuration / videoDuration⌉
      .looped (loopCount - 1) targetDuration

/-- `EditorService.loopVideoToMatchAudio(videoPath, audioPath, jobId)`.
`audioProbe` is the ffprobe outcome on the audio, `videoProbe1` the first
ffprobe outcome on the video, and `videoProbe2` the outcome of the second
ffprobe on the same video performed inside `loopVideo` (a separate call,
which may fail independently). -/
def loopVideoToMatchAudio (audioProbe videoProbe1 videoProbe2 : Option ℚ) :
    ReconcileResult :=
  match audioProbe with
  | none => .original
  | some audioDuration =>
      match videoProbe1 with
      | none => .original
      | some videoDuration =>
          if videoDuration ≥ audioDuration then .trimmed audioDuration
          else loopVideo videoProbe2 audioDuration

end VidGen

namespace VidGen

/-- C1: for positive probed durations, `videoDuration ≥ audioDuration` takes
the trim path (truncate to `audioDuration`, no loop instruction);
`videoDuration < audioDuration` takes the loop path with
`loopCount = ⌈audioDuration/videoDuration⌉ ≥ 2`, repeating the source
`loopCount - 1` additional times and truncating to `audioDuration`; the
exact tie takes the trim path and the loop-count formula yields 1. -/
theorem reconciler_trim_or_loop (videoDuration audioDuration : ℚ)
    (hv : 0 < videoDuration) (ha : 0 < audioDuration) :
    (audioDuration ≤ videoDuration →
      loopVideoToMatchAudio (some audioDuration) (some videoDuration)
        (some videoDuration) = .trimmed audioDuration) ∧
    (videoDuration < audioDuration →
      loopVideoToMatchAudio (some audioDuration) (some videoDuration)
        (some videoDuration) =
        .looped (⌈audioDuration / videoDuration⌉ - 1) audioDuration ∧
      2 ≤ ⌈audioDuration / videoDuration⌉) ∧
    (videoDuration = audioDuration →
      loopVideoToMatchAudio (some audioDuration) (some videoDuration)
        (some videoDuration) = .trimmed audioDuration ∧
      ⌈audioDuration / videoDuration⌉ = 1) := by
  refine ⟨?_, ?_, ?_⟩
  · intro h
    simp [loopVideoToMatchAudio, h]
  · intro h
    constructor
    · simp [loopVideoToMatchAudio, loopVideo, not_le.mpr h]
    · have h1 : (1 : ℚ) < audioDuration / videoDuration :=
        (one_lt_div hv).mpr h
      have := Int.lt_ceil.mpr (by exact_mod_cast h1 : ((1 : ℤ) : ℚ) < audioDuration / videoDuration)
      omega
  · intro h
    subst h
    constructor
    · simp [loopVideoToMatchAudio]
    · rw [div_self (ne_of_gt hv)]
      exact Int.ceil_one

/-- C1 witness: the exact tie at 5 seconds takes the trim path and the
loop-count formula yields 1. -/
theorem reconciler_trim_or_loop_witness :
    loopVideoToMatchAudio (some 5) (some 5) (some 5) = .trimmed 5 ∧
      ⌈(5 : ℚ) / 5⌉ = 1 :=
  (reconciler_trim_or_loop 5 5 (by norm_num) (by norm_num)).2.2 rfl

/-- C6 counterexample: with audio duration 10 and an initial video probe of
5 seconds, a failure of the second video probe (the one inside `loopVideo`)
REJECTS — the error propagates instead of the original path being returned
unchanged, so a video-probe failure is not always non-fatal. -/
theorem reconcile_probe_failure_counterexample :
    loopVideoToMatchAudio (some 10) (some 5) none = .probeError ∧
      loopVideoToMatchAudio (some 10) (some 5) none ≠ .original := by
  constructor
  · rfl
  · rw [show loopVideoToMatchAudio (some 10) (some 5) none =
        ReconcileResult.probeError from rfl]
    decide

/-- C6 amended: a failure of the audio probe, or of the initial video probe
in `loopVideoToMatchAudio`, skips reconciliation and resolves with the
original video path regardless of every other probe outcome. -/
theorem reconcile_probe_skip (audioProbe videoProbe1 videoProbe2 : Option ℚ) :
    (audioProbe = none →
      loopVideoToMatchAudio audioProbe videoProbe1 videoProbe2 = .original) ∧
    (videoProbe1 = none →
      loopVideoToMatchAudio audioProbe videoProbe1 videoProbe2 = .original) := by
  constructor
  · intro h
    subst h
    rfl
  · intro h
    subst h
    cases audioProbe <;> rfl

/-- C6 amended witness: an audio-probe failure returns the original path. -/
theorem reconcile_probe_skip_witness :
    loopVideoToMatchAudio none (some 5) (some 5) = .original :=
  (reconcile_probe_skip none (some 5) (some 5)).1 rfl

/-! ## Job orchestrator (`VideoGenerationProcessor.handleVideoGeneration`,
video-generation.processor.ts)

The processor reports progress 10, then awaits the script stage (25), the
media stage (50), the assembly stage (75); it calls the publisher only when
an upload destination was requested, reports 90, then 100, and returns the
result object.  Any stage rejection is rethrown after the progress reported
so far.  The embedding passes each awaited stage call's outcome explicitly
and returns the list of reported progress values next to the outcome. -/

/-- `VideoGenerationJobData` from video-generation.processor.ts. -/
structure VideoGenerationJobData where
  jobId : String
  prompt : String
  uploadToYoutube : Bool
  uploadToTiktok : Bool
  title : Option String
  description : Option String
  tags : Option String
deriving DecidableEq

/-- The shape of the object returned by `handleVideoGeneration`. -/
structure JobResult where
  success : Bool
  jobId : String
  finalVideoPath : String
  uploadUrls : UploadUrls
  scriptData : ScriptData
deriving DecidableEq

/-- Outcomes of the four awaited stage calls made by the processor. -/
structure StageOutcomes where
  generateScript : Except String ScriptData
  generateMedia : Except String MediaFiles
  assembleVideo : Except String String
  uploadToSocial : Except String UploadUrls

/-- `VideoGenerationProcessor.handleVideoGeneration(job)`: the reported
progress values in order, together with the returned result or the
propagated error. -/
def handleVideoGeneration (data : VideoGenerationJobData)
    (st : StageOutcomes) : List ℕ × Except String JobResult :=
  match st.generateScript with
  | .error e => ([10], .error e)
  | .ok scriptData =>
      match st.generateMedia with
      | .error e => ([10, 25], .error e)
      | .ok _mediaFiles =>
          match st.assembleVideo with
          | .error e => ([10, 25, 50], .error e)
          | .ok finalVideoPath =>
              if data.uploadToYoutube || data.uploadToTiktok then
                match st.uploadToSocial with
                | .error e => ([10, 25, 50, 75], .error e)
                | .ok uploadUrls =>
                    ([10, 25, 50, 75, 90, 100],
                     .ok { success := true, jobId := data.jobId,
                           finalVideoPath := finalVideoPath,
                           uploadUrls := uploadUrls,
                           scriptData := scriptData })
              else
                ([10, 25, 50, 75, 90, 100],
                 .ok { success := true, jobId := data.jobId,
                       finalVideoPath := finalVideoPath,
                       uploadUrls := { youtube := none, tiktok := none },
                       scriptData := scriptData })

/-- C2: a job whose three mandatory stages succeed and which requests no
upload destination reports exactly the progress sequence
`[10, 25, 50, 75, 90, 100]` (strictly increasing), and returns a successful
result whose `uploadUrls` is the empty mapping. -/
theorem orchestrator_progress_no_upload (data : VideoGenerationJobData)
    (st : StageOutcomes) (s : ScriptData) (m : MediaFiles) (p : String)
    (hy : data.uploadToYoutube = false) (ht : data.uploadToTiktok = false)
    (hs : st.generateScript = .ok s) (hm : st.generateMedia = .ok m)
    (ha : st.assembleVideo = .ok p) :
    handleVideoGeneration data st =
      ([10, 25, 50, 75, 90, 100],
       .ok { success := true, jobId := data.jobId, finalVideoPath := p,
             uploadUrls := { youtube := none, tiktok := none },
             scriptData := s }) ∧
    List.Chain' (· < ·) (handleVideoGeneration data st).1 := by
  have hmain : handleVideoGeneration data st =
      ([10, 25, 50, 75, 90, 100],
       .ok { success := true, jobId := data.jobId, finalVideoPath := p,
             uploadUrls := { youtube := none, tiktok := none },
             scriptData := s }) := by
    simp [handleVideoGeneration, hs, hm, ha, hy, ht]
  refine ⟨hmain, ?_⟩
  rw [hmain]
  show List.Chain' (· < ·) ([10, 25, 50, 75, 90, 100] : List ℕ)
  norm_num [List.chain'_cons]

/-- C2 witness: a concrete successful job with no upload requested. -/
theorem orchestrator_progress_no_upload_witness :
    handleVideoGeneration
      { jobId := "job1", prompt := "cats", uploadToYoutube := false,
        uploadToTiktok := false, title := none, description := none,
        tags := none }
      { generateScript := .ok ⟨"s", [], []⟩,
        generateMedia := .ok ⟨"a", [], "t"⟩,
        assembleVideo := .ok "out.mp4",
        uploadToSocial := .ok {} } =
      ([10, 25, 50, 75, 90, 100],
       .ok { success := true, jobId := "job1", finalVideoPath := "out.mp4",
             uploadUrls := { youtube := none, tiktok := none },
             scriptData := ⟨"s", [], []⟩ }) :=
  (orchestrator_progress_no_upload _ _ _ ⟨"a", [], "t"⟩ _
    rfl rfl rfl rfl rfl).1

/-! ## Subtitle timestamp formatter (`MediaService.formatSrtTime`)

TypeScript numbers become exact rationals; `Math.floor` is `Int.floor`; the
JS `%` operator (remainder with the dividend's sign, truncated division) is
`jsMod`; `String(n).padStart(w, '0')` is `padStart (numToString n) w '0'`. -/

/-- Truncation toward zero, as JS division underlying the `%` operator. -/
def jsTrunc (q : ℚ) : ℤ :=
  if 0 ≤ q then ⌊q⌋ else ⌈q⌉

/-- The JS `%` operator on numbers: `a - b * trunc (a / b)`. -/
def jsMod (a b : ℚ) : ℚ :=
  a - b * jsTrunc (a / b)

/-- `String.prototype.padStart(targetLength, padChar)`. -/
def padStart (s : String) (targetLength : ℕ) (padChar : Char) : String :=
  if targetLength ≤ s.length then s
  else String.mk (List.replicate (targetLength - s.length) padChar) ++ s

/-- `String(n)` for an integer-valued number. -/
def numToString (n : ℤ) : String :=
  if n < 0 then "-" ++ n.natAbs.repr else n.natAbs.repr

/-- `MediaService.formatSrtTime(seconds)`: `hours = Math.floor(seconds/3600)`,
`minutes = Math.floor((seconds % 3600)/60)`, `secs = Math.floor(seconds % 60)`,
`millis = Math.floor((seconds % 1)*1000)`, assembled into
`HH:MM:SS,mmm` with `padStart`. -/
def formatSrtTime (seconds : ℚ) : String :=
  padStart (numToString ⌊seconds / 3600⌋) 2 '0' ++ ":" ++
    padStart (numToString ⌊jsMod seconds 3600 / 60⌋) 2 '0' ++ ":" ++
    padStart (numToString ⌊jsMod seconds 60⌋) 2 '0' ++ "," ++
    padStart (numToString ⌊jsMod seconds 1 * 1000⌋) 3 '0'

/-- Evaluation helper: once the four integer fields are known, the
formatted string is a pure concatenation of padded digit strings. -/
theorem formatSrtTime_eval (s : ℚ) (h m sec ms : ℤ)
    (hh : ⌊s / 3600⌋ = h) (hm : ⌊jsMod s 3600 / 60⌋ = m)
    (hs : ⌊jsMod s 60⌋ = sec) (hms : ⌊jsMod s 1 * 1000⌋ = ms) :
    formatSrtTime s =
      padStart (numToString h) 2 '0' ++ ":" ++
        padStart (numToString m) 2 '0' ++ ":" ++
        padStart (numToString sec) 2 '0' ++ "," ++
        padStart (numToString ms) 3 '0' := by
  rw [formatSrtTime, hh, hm, hs, hms]

/-- Modelled from the spec: a full match of the pattern
`\d\x7b2\x7d:\d\x7b2\x7d:\d\x7b2\x7d,\d\x7b3\x7d` — exactly two digits,
a colon, two digits, a colon, two digits, a comma, three digits. -/
def matchesSrtPattern (s : String) : Bool :=
  match s.data with
  | [h1, h2, c1, m1, m2, c2, s1, s2, c3, x1, x2, x3] =>
      h1.isDigit && h2.isDigit && (c1 == ':') && m1.isDigit && m2.isDigit &&
        (c2 == ':') && s1.isDigit && s2.isDigit && (c3 == ',') &&
        x1.isDigit && x2.isDigit && x3.isDigit
  | _ => false

/-- Check that a nonnegative number below 100 renders as two digit chars. -/
def twoDigitStr (n : ℕ) : Bool :=
  match (padStart (numToString (n : ℤ)) 2 '0').data with
  | [a, b] => a.isDigit && b.isDigit
  | _ => false

/-- Check that a nonnegative number below 1000 renders as three digit
chars after padding to width 3. -/
def threeDigitStr (n : ℕ) : Bool :=
  match (padStart (numToString (n : ℤ)) 3 '0').data with
  | [a, b, c] => a.isDigit && b.isDigit && c.isDigit
  | _ => false

set_option maxRecDepth 4000 in
theorem twoDigitStr_lt_100 : ∀ n : ℕ, n < 100 → twoDigitStr n = true := by
  decide

set_option maxRecDepth 40000 in
theorem threeDigitStr_lt_1000 : ∀ n : ℕ, n < 1000 → threeDigitStr n = true := by
  decide

theorem pad2_shape (n : ℤ) (h0 : 0 ≤ n) (h : n < 100) :
    ∃ a b : Char, (padStart (numToString n) 2 '0').data = [a, b] ∧
      a.isDigit = true ∧ b.isDigit = true := by
  obtain ⟨m, rfl⟩ := Int.eq_ofNat_of_zero_le h0
  have hm : m < 100 := by exact_mod_cast h
  have hbool := twoDigitStr_lt_100 m hm
  unfold twoDigitStr at hbool
  cases hdata : (padStart (numToString ((m : ℕ) : ℤ)) 2 '0').data with
  | nil => rw [hdata] at hbool; exact absurd hbool (by simp)
  | cons a t =>
      cases t with
      | nil => rw [hdata] at hbool; exact absurd hbool (by simp)
      | cons b t2 =>
          cases t2 with
          | nil =>
              rw [hdata] at hbool
              simp only [Bool.and_eq_true] at hbool
              exact ⟨a, b, rfl, hbool.1, hbool.2⟩
          | cons c t3 => rw [hdata] at hbool; exact absurd hbool (by simp)

theorem pad3_shape (n : ℤ) (h0 : 0 ≤ n) (h : n < 1000) :
    ∃ a b c : Char, (padStart (numToString n) 3 '0').data = [a, b, c] ∧
      a.isDigit = true ∧ b.isDigit = true ∧ c.isDigit = true := by
  obtain ⟨m, rfl⟩ := Int.eq_ofNat_of_zero_le h0
  have hm : m < 1000 := by exact_mod_cast h
  have hbool := threeDigitStr_lt_1000 m hm
  unfold threeDigitStr at hbool
  cases hdata : (padStart (numToString ((m : ℕ) : ℤ)) 3 '0').data with
  | nil => rw [hdata] at hbool; exact absurd hbool (by simp)
  | cons a t =>
      cases t with
      | nil => rw [hdata] at hbool; exact absurd hbool (by simp)
      | cons b t2 =>
          cases t2 with
          | nil => rw [hdata] at hbool; exact absurd hbool (by simp)
          | cons c t3 =>
              cases t3 with
              | nil =>
                  rw [hdata] at hbool
                  simp only [Bool.and_eq_true] at hbool
                  exact ⟨a, b, c, rfl, hbool.1.1, hbool.1.2, hbool.2⟩
              | cons d t4 => rw [hdata] at hbool; exact absurd hbool (by simp)

theorem jsMod_nonneg (a b : ℚ) (ha : 0 ≤ a) (hb : 0 < b) : 0 ≤ jsMod a b := by
  have hdiv : 0 ≤ a / b := div_nonneg ha hb.le
  have hfloor : (⌊a / b⌋ : ℚ) ≤ a / b := Int.floor_le _
  have hmul : b * (⌊a / b⌋ : ℚ) ≤ b * (a / b) :=
    mul_le_mul_of_nonneg_left hfloor hb.le
  have hcancel : b * (a / b) = a := by
    field_simp
  simp only [jsMod, jsTrunc, if_pos hdiv]
  linarith

theorem jsMod_lt (a b : ℚ) (ha : 0 ≤ a) (hb : 0 < b) : jsMod a b < b := by
  have hdiv : 0 ≤ a / b := div_nonneg ha hb.le
  have hfloor : a / b < (⌊a / b⌋ : ℚ) + 1 := Int.lt_floor_add_one _
  have hmul : b * (a / b) < b * ((⌊a / b⌋ : ℚ) + 1) :=
    (mul_lt_mul_left hb).mpr hfloor
  have hcancel : b * (a / b) = a := by
    field_simp
  simp only [jsMod, jsTrunc, if_pos hdiv]
  nlinarith

/-- C3 counterexample: at 360000 seconds the hour field has three digits,
so the formatted string does not match the 12-character
`HH:MM:SS,mmm` pattern the claim states for every `seconds ≥ 0`. -/
theorem formatSrtTime_pattern_counterexample :
    formatSrtTime 360000 = "100:00:00,000" ∧
      matchesSrtPattern (formatSrtTime 360000) = false := by
  have he : formatSrtTime 360000 = "100:00:00,000" := by
    rw [formatSrtTime_eval 360000 100 0 0 0 (by norm_num)
      (by norm_num [jsMod, jsTrunc]) (by norm_num [jsMod, jsTrunc])
      (by norm_num [jsMod, jsTrunc])]
    decide
  exact ⟨he, by rw [he]; decide⟩

/-- C3 amended: for every `0 ≤ seconds < 360000` (hour field below 100) the
formatter output fully matches `\d\x7b2\x7d:\d\x7b2\x7d:\d\x7b2\x7d,\d\x7b3\x7d`,
and the three cited boundary values format exactly as stated. -/
theorem formatSrtTime_pattern_and_examples :
    (∀ seconds : ℚ, 0 ≤ seconds → seconds < 360000 →
      matchesSrtPattern (formatSrtTime seconds) = true) ∧
    formatSrtTime 0 = "00:00:00,000" ∧
    formatSrtTime 3665 = "01:01:05,000" ∧
    formatSrtTime (3723005 / 1000) = "01:02:03,005" := by
  refine ⟨?_, ?_, ?_, ?_⟩
  case refine_2 =>
    rw [formatSrtTime_eval 0 0 0 0 0 (by norm_num)
      (by norm_num [jsMod, jsTrunc]) (by norm_num [jsMod, jsTrunc])
      (by norm_num [jsMod, jsTrunc])]
    decide
  case refine_3 =>
    rw [formatSrtTime_eval 3665 1 1 5 0 (by norm_num)
      (by norm_num [jsMod, jsTrunc]) (by norm_num [jsMod, jsTrunc])
      (by norm_num [jsMod, jsTrunc])]
    decide
  case refine_4 =>
    rw [formatSrtTime_eval (3723005 / 1000) 1 2 3 5 (by norm_num)
      (by norm_num [jsMod, jsTrunc]) (by norm_num [jsMod, jsTrunc])
      (by norm_num [jsMod, jsTrunc])]
    decide
  intro s h0 h1
  have hours0 : (0 : ℤ) ≤ ⌊s / 3600⌋ :=
    Int.floor_nonneg.mpr (div_nonneg h0 (by norm_num))
  have hours1 : ⌊s / 3600⌋ < 100 := by
    apply Int.floor_lt.mpr
    rw [div_lt_iff₀ (by norm_num : (0 : ℚ) < 3600)]
    push_cast
    linarith
  have hm0 : (0 : ℚ) ≤ jsMod s 3600 := jsMod_nonneg s 3600 h0 (by norm_num)
  have hm1 : jsMod s 3600 < 3600 := jsMod_lt s 3600 h0 (by norm_num)
  have minutes0 : (0 : ℤ) ≤ ⌊jsMod s 3600 / 60⌋ :=
    Int.floor_nonneg.mpr (div_nonneg hm0 (by norm_num))
  have minutes1 : ⌊jsMod s 3600 / 60⌋ < 100 := by
    apply Int.floor_lt.mpr
    rw [div_lt_iff₀ (by norm_num : (0 : ℚ) < 60)]
    push_cast
    linarith
  have hs0 : (0 : ℚ) ≤ jsMod s 60 := jsMod_nonneg s 60 h0 (by norm_num)
  have hs1 : jsMod s 60 < 60 := jsMod_lt s 60 h0 (by norm_num)
  have secs0 : (0 : ℤ) ≤ ⌊jsMod s 60⌋ := Int.floor_nonneg.mpr hs0
  have secs1 : ⌊jsMod s 60⌋ < 100 := by
    apply Int.floor_lt.mpr
    push_cast
    linarith
  have hms0 : (0 : ℚ) ≤ jsMod s 1 := jsMod_nonneg s 1 h0 (by norm_num)
  have hms1 : jsMod s 1 < 1 := jsMod_lt s 1 h0 (by norm_num)
  have millis0 : (0 : ℤ) ≤ ⌊jsMod s 1 * 1000⌋ :=
    Int.floor_nonneg.mpr (by nlinarith)
  have millis1 : ⌊jsMod s 1 * 1000⌋ < 1000 := by
    apply Int.floor_lt.mpr
    push_cast
    nlinarith
  obtain ⟨a1, a2, ha, had1, had2⟩ := pad2_shape _ hours0 hours1
  obtain ⟨b1, b2, hb, hbd1, hbd2⟩ := pad2_shape _ minutes0 minutes1
  obtain ⟨c1, c2, hc, hcd1, hcd2⟩ := pad2_shape _ secs0 secs1
  obtain ⟨d1, d2, d3, hd, hdd1, hdd2, hdd3⟩ := pad3_shape _ millis0 millis1
  have hcolon : (":" : String).data = [':'] := rfl
  have hcomma : ("," : String).data = [','] := rfl
  have hdata : (formatSrtTime s).data =
      [a1, a2, ':', b1, b2, ':', c1, c2, ',', d1, d2, d3] := by
    rw [formatSrtTime]
    simp [String.data_append, ha, hb, hc, hd, hcolon, hcomma]
  rw [matchesSrtPattern.eq_def, hdata]
  simp [had1, had2, hbd1, hbd2, hcd1, hcd2, hdd1, hdd2, hdd3]

/-- C3 amended witness: the pattern guarantee applied at one of the cited
boundary values, 3665 seconds. -/
theorem formatSrtTime_pattern_witness :
    matchesSrtPattern (formatSrtTime 3665) = true :=
  formatSrtTime_pattern_and_examples.1 3665 (by norm_num) (by norm_num)

/-! ## Script stage (`ScriptService`, script.service.ts) -/

/-- `ScriptService.createFallbackScript(prompt)`: the deterministic
template used whenever Gemini is unconfigured, its call fails, or its
output cannot be parsed. -/
def createFallbackScript (prompt : String) : ScriptData :=
  { script := "This is a video about " ++ prompt ++
      ". We'll explore this fascinating topic in detail.",
    visual_prompts := [
      { index := 0, prompt := "Cinematic scene showing " ++ prompt,
        duration := 10 },
      { index := 1, prompt := "Close-up details of " ++ prompt,
        duration := 10 },
      { index := 2, prompt := "Wide angle view of " ++ prompt,
        duration := 10 }],
    timestamps := [
      { start := 0, «end» := 10,
        text := "This is a video about " ++ prompt ++ "." },
      { start := 10, «end» := 20,
        text := "We'll explore this fascinating topic" },
      { start := 20, «end» := 30, text := "in detail." }] }

/-- C4: the script fallback is a deterministic template of the prompt:
a fixed narration sentence containing the prompt, exactly 3 visual cues of
10 seconds each whose descriptors frame the prompt with the cinematic,
close-up and wide-angle variants, and exactly 3 contiguous non-overlapping
subtitle cues over [0,10), [10,20), [20,30). -/
theorem fallback_script_template (prompt : String) :
    (∃ pre post, (createFallbackScript prompt).script =
        pre ++ prompt ++ post) ∧
    (createFallbackScript prompt).visual_prompts.length = 3 ∧
    (∀ vp ∈ (createFallbackScript prompt).visual_prompts,
      vp.duration = 10) ∧
    (createFallbackScript prompt).visual_prompts.map VisualPrompt.prompt =
      ["Cinematic scene showing " ++ prompt,
       "Close-up details of " ++ prompt,
       "Wide angle view of " ++ prompt] ∧
    (createFallbackScript prompt).timestamps.map
        (fun t => (t.start, t.«end»)) = [(0, 10), (10, 20), (20, 30)] ∧
    List.Chain' (fun a b => a.«end» = b.start)
      (createFallbackScript prompt).timestamps ∧
    (∀ t ∈ (createFallbackScript prompt).timestamps, t.start < t.«end») := by
  refine ⟨⟨"This is a video about ",
    ". We'll explore this fascinating topic in detail.", rfl⟩,
    rfl, ?_, rfl, rfl, ?_, ?_⟩
  · intro vp hvp
    simp only [createFallbackScript, List.mem_cons, List.not_mem_nil,
      or_false] at hvp
    rcases hvp with h | h | h <;> subst h <;> rfl
  · simp [createFallbackScript, List.chain'_cons]
  · intro t ht
    simp only [createFallbackScript, List.mem_cons, List.not_mem_nil,
      or_false] at ht
    rcases ht with h | h | h <;> subst h <;> norm_num

/-- A JavaScript value as it may sit in the `script` field of the parsed
`any` object.  `undefined` stands for a missing field; `object` stands for
any array or object value (truthy, and without a `substring` method);
`NaN` is not representable in ℚ, so `num` covers the remaining numbers. -/
inductive JsValue where
  | undefined : JsValue
  | null : JsValue
  | boolean (b : Bool) : JsValue
  | num (q : ℚ) : JsValue
  | str (s : String) : JsValue
  | object : JsValue
deriving DecidableEq

/-- JS truthiness: `undefined`, `null`, `false`, `0` and `""` are falsy;
everything else (including every non-empty string, non-zero number, array
and object) is truthy. -/
def JsValue.truthy : JsValue → Bool
  | .undefined => false
  | .null => false
  | .boolean b => b
  | .num q => if q = 0 then false else true
  | .str s => if s = "" then false else true
  | .object => true

/-- Whether a JS value is a non-empty string. -/
def JsValue.isNonEmptyString : JsValue → Bool
  | .str s => if s = "" then false else true
  | _ => false

/-- `v.substring(start, stop)`: only strings have a `substring` method;
on every other value the property access yields `undefined` and the call
throws a `TypeError`. -/
def jsSubstring (v : JsValue) (start stop : ℕ) : Except String String :=
  match v with
  | .str s => .ok (String.mk ((s.data.take stop).drop start))
  | _ => .error "TypeError: data.script.substring is not a function"

/-- The `any`-typed object handed to `ScriptService.validateScriptData`:
the `script` field is an arbitrary JS value; for the two array fields,
`none` models any value with `Array.isArray(x) = false` (the source never
inspects the elements of a present array, only its length). -/
structure RawScriptData where
  script : JsValue
  visual_prompts : Option (List VisualPrompt)
  timestamps : Option (List TimestampSegment)

/-- The object `validateScriptData` returns (cast `as ScriptData` in the
source): the `script` field is whatever JS value survived the falsiness
check, NOT necessarily a string. -/
structure ValidatedScriptData where
  script : JsValue
  visual_prompts : List VisualPrompt
  timestamps : List TimestampSegment
deriving DecidableEq

/-- `ScriptService.validateScriptData(data)`: `if (!data.script)` patches
only FALSY scripts with the default — a truthy non-string (number, `true`,
array, object) is kept as-is; non-array or empty `visual_prompts` and
`timestamps` are patched with their defaults; the timestamps default calls
`data.script.substring(0, 100)` on the already-patched script, which throws
a `TypeError` when that script is a truthy non-string. -/
def validateScriptData (data : RawScriptData) :
    Except String ValidatedScriptData :=
  let script : JsValue :=
    if data.script.truthy then data.script
    else .str "Generated video content."
  let visual_prompts : List VisualPrompt :=
    match data.visual_prompts with
    | some l => if l = [] then
        [{ index := 0, prompt := "Cinematic video scene", duration := 10 }]
      else l
    | none =>
        [{ index := 0, prompt := "Cinematic video scene", duration := 10 }]
  match data.timestamps with
  | some l =>
      if l = [] then
        match jsSubstring script 0 100 with
        | .ok t =>
            .ok { script := script,
                  visual_prompts := visual_prompts,
                  timestamps := [{ start := 0, «end» := 10, text := t }] }
        | .error e => .error e
      else
        .ok { script := script,
              visual_prompts := visual_prompts,
              timestamps := l }
  | none =>
      match jsSubstring script 0 100 with
      | .ok t =>
          .ok { script := script,
                visual_prompts := visual_prompts,
                timestamps := [{ start := 0, «end» := 10, text := t }] }
      | .error e => .error e

/-- View of a well-typed `ScriptData` (the fallback) as the runtime object
it is: its `script` is a string value. -/
def ScriptData.toValidated (s : ScriptData) : ValidatedScriptData :=
  { script := .str s.script, visual_prompts := s.visual_prompts,
    timestamps := s.timestamps }

/-- View of a `ScriptData` as the parsed `any` object fed to
`validateScriptData` on the parse-failure path of `generateScript`. -/
def rawOfScriptData (s : ScriptData) : RawScriptData :=
  { script := .str s.script, visual_prompts := some s.visual_prompts,
    timestamps := some s.timestamps }

/-- Outcome of the Gemini `generateContent` attempt inside
`ScriptService.generateScript`. -/
inductive ScriptAttempt where
  /-- `generateContent`/`response.text()` rejected or threw. -/
  | callFailed (msg : String) : ScriptAttempt
  /-- The response text could not be parsed as JSON. -/
  | parseFailed : ScriptAttempt
  /-- The response text parsed into an object of some shape. -/
  | parsed (data : RawScriptData) : ScriptAttempt

/-- `ScriptService.generateScript(prompt, jobId)`.  `configured` is whether
`GEMINI_API_KEY` was set (so `this.genAI` exists); `att` is the outcome of
the external call.  Every path returns a script: the unconfigured branch and
the outer catch return the fallback directly, the parse-failure branch
validates the fallback, and the success branch validates the parsed data;
a `TypeError` thrown inside `validateScriptData` is caught by the outer
catch, which returns the fallback. -/
def generateScript (configured : Bool) (prompt : String)
    (att : ScriptAttempt) : Except String ValidatedScriptData :=
  if !configured then .ok (createFallbackScript prompt).toValidated
  else
    match att with
    | .callFailed _ => .ok (createFallbackScript prompt).toValidated
    | .parseFailed =>
        match validateScriptData (rawOfScriptData (createFallbackScript prompt)) with
        | .ok v => .ok v
        | .error _ => .ok (createFallbackScript prompt).toValidated
    | .parsed d =>
        match validateScriptData d with
        | .ok v => .ok v
        | .error _ => .ok (createFallbackScript prompt).toValidated

/-- `generateScript` resolves on every path: each of its branches returns
a value, catching any throw from validation. -/
theorem generateScript_total (configured : Bool) (prompt : String)
    (att : ScriptAttempt) :
    ∃ s, generateScript configured prompt att = .ok s := by
  cases configured with
  | false => exact ⟨_, rfl⟩
  | true =>
      cases att with
      | callFailed m => exact ⟨_, rfl⟩
      | parseFailed =>
          cases h : validateScriptData
              (rawOfScriptData (createFallbackScript prompt)) with
          | ok v => exact ⟨v, by simp [generateScript, h]⟩
          | error e =>
              exact ⟨(createFallbackScript prompt).toValidated,
                by simp [generateScript, h]⟩
      | parsed d =>
          cases h : validateScriptData d with
          | ok v => exact ⟨v, by simp [generateScript, h]⟩
          | error e =>
              exact ⟨(createFallbackScript prompt).toValidated,
                by simp [generateScript, h]⟩

/-! ## Media stage (`MediaService`, audio and clips) -/

/-- `MediaService.createSilentAudio(jobId)`: runs ffmpeg to synthesise 30s
of silence; `ffmpegResult` is the subprocess outcome.  On failure the error
is rethrown (`throw error`). -/
def createSilentAudio (ffmpegResult : Except String Unit)
    (tempDir jobId : String) : Except String String :=
  match ffmpegResult with
  | .ok _ => .ok (getTempPath tempDir (jobId ++ "_audio.mp3"))
  | .error e => .error e

/-- `MediaService.generateAudio(script, jobId)`: attempts edge-tts
(`ttsResult`); on any failure it falls back to `createSilentAudio`, whose
own ffmpeg outcome is `ffmpegResult`. -/
def generateAudio (ttsResult ffmpegResult : Except String Unit)
    (tempDir jobId : String) : Except String String :=
  match ttsResult with
  | .ok _ => .ok (getTempPath tempDir (jobId ++ "_audio.mp3"))
  | .error _ => createSilentAudio ffmpegResult tempDir jobId

/-- The temp path of the clip file for one visual prompt; both the real
generation and the placeholder write `jobId_clip_index.mp4`. -/
def clipPath (tempDir jobId : String) (prompt : VisualPrompt) : String :=
  getTempPath tempDir (jobId ++ "_clip_" ++ toString prompt.index ++ ".mp4")

/-- `MediaService.createPlaceholderVideo(prompt, jobId)`: runs ffmpeg to
draw a colour card; `ph prompt` is the subprocess outcome for this prompt.
On failure the error is rethrown (`throw error`). -/
def createPlaceholderVideo (ph : VisualPrompt → Except String Unit)
    (tempDir jobId : String) (prompt : VisualPrompt) : Except String String :=
  match ph prompt with
  | .ok _ => .ok (clipPath tempDir jobId prompt)
  | .error e => .error e

/-- `MediaService.generateSingleVideo(prompt, jobId)`: without a Hugging
Face key it goes straight to the placeholder; otherwise `hf prompt` is the
outcome of the HTTP call, whose failure also falls back to the
placeholder. -/
def generateSingleVideo (hfApiKey : Bool)
    (hf ph : VisualPrompt → Except String Unit)
    (tempDir jobId : String) (prompt : VisualPrompt) : Except String String :=
  if !hfApiKey then createPlaceholderVideo ph tempDir jobId prompt
  else
    match hf prompt with
    | .ok _ => .ok (clipPath tempDir jobId prompt)
    | .error _ => createPlaceholderVideo ph tempDir jobId prompt

/-- `MediaService.generateVideos(visualPrompts, jobId)`: one sequential
loop; each iteration tries `generateSingleVideo` and, should it throw,
calls `createPlaceholderVideo` once more for that prompt; an error from
that second placeholder call aborts the whole loop. -/
def generateVideos (hfApiKey : Bool)
    (hf ph : VisualPrompt → Except String Unit) (tempDir jobId : String) :
    List VisualPrompt → Except String (List String)
  | [] => .ok []
  | prompt :: rest =>
      match
        ((match generateSingleVideo hfApiKey hf ph tempDir jobId prompt with
          | .ok path => .ok path
          | .error _ => createPlaceholderVideo ph tempDir jobId prompt) :
          Except String String) with
      | .error e => .error e
      | .ok path =>
          match generateVideos hfApiKey hf ph tempDir jobId rest with
          | .ok paths => .ok (path :: paths)
          | .error e => .error e

theorem generateSingleVideo_ok (hfApiKey : Bool)
    (hf ph : VisualPrompt → Except String Unit) (tempDir jobId : String)
    (p : VisualPrompt) (hp : ph p = .ok ()) :
    generateSingleVideo hfApiKey hf ph tempDir jobId p =
      .ok (clipPath tempDir jobId p) := by
  cases hfApiKey with
  | false => simp [generateSingleVideo, createPlaceholderVideo, hp]
  | true =>
      cases hhf : hf p with
      | ok u => simp [generateSingleVideo, hhf]
      | error e => simp [generateSingleVideo, createPlaceholderVideo, hhf, hp]

/-- C5 counterexample: when the edge-tts attempt fails AND the silent-audio
ffmpeg fallback also fails, `generateAudio` propagates the fallback error
to its caller instead of returning a fallback output. -/
theorem adapter_fallback_counterexample :
    generateAudio (.error "edge-tts failed") (.error "ffmpeg failed")
      "./temp" "job1" = .error "ffmpeg failed" := rfl

/-- C5 amended: no adapter ever propagates the attempt failure itself —
the script adapter returns a script on every path; the audio adapter
returns the silent fallback whenever the silent-audio ffmpeg call succeeds;
the clip adapter returns the placeholder whenever the placeholder ffmpeg
call succeeds.  Only a failure of the fallback generation itself (silent
audio or placeholder, both local ffmpeg invocations) propagates. -/
theorem adapters_fallback_on_attempt_failure (configured : Bool)
    (prompt : String) (att : ScriptAttempt)
    (ttsResult : Except String Unit) (tempDir jobId : String)
    (hfApiKey : Bool) (hf ph : VisualPrompt → Except String Unit)
    (p : VisualPrompt) :
    (∃ s, generateScript configured prompt att = .ok s) ∧
    (generateAudio ttsResult (.ok ()) tempDir jobId =
      .ok (getTempPath tempDir (jobId ++ "_audio.mp3"))) ∧
    (ph p = .ok () →
      generateSingleVideo hfApiKey hf ph tempDir jobId p =
        .ok (clipPath tempDir jobId p)) := by
  refine ⟨?_, ?_, ?_⟩
  · exact generateScript_total configured prompt att
  · cases ttsResult <;> rfl
  · intro hp
    exact generateSingleVideo_ok hfApiKey hf ph tempDir jobId p hp

/-- C5 amended witness: a failed Hugging Face call with a succeeding
placeholder yields the placeholder clip path. -/
theorem adapters_fallback_witness :
    generateSingleVideo true (fun _ => .error "HF 503") (fun _ => .ok ())
      "./temp" "job1" ⟨0, "a cat", 10⟩ =
      .ok (clipPath "./temp" "job1" ⟨0, "a cat", 10⟩) :=
  (adapters_fallback_on_attempt_failure true "a cat" .parseFailed
    (.error "tts") "./temp" "job1" true (fun _ => .error "HF 503")
    (fun _ => .ok ()) ⟨0, "a cat", 10⟩).2.2 rfl

/-- C7: when every cue's placeholder ffmpeg call succeeds, the clip stage
returns one path per visual cue, in cue order, each determined by that
cue's index alone — a failed generation for one cue substitutes that cue's
placeholder path (the same `jobId_clip_index.mp4` temp path) and leaves
every other entry unchanged. -/
theorem clip_stage_length_and_order (hfApiKey : Bool)
    (hf ph : VisualPrompt → Except String Unit) (tempDir jobId : String)
    (prompts : List VisualPrompt)
    (hph : ∀ p ∈ prompts, ph p = .ok ()) :
    generateVideos hfApiKey hf ph tempDir jobId prompts =
      .ok (prompts.map (clipPath tempDir jobId)) ∧
    (prompts.map (clipPath tempDir jobId)).length = prompts.length := by
  refine ⟨?_, List.length_map _ _⟩
  induction prompts with
  | nil => rfl
  | cons p rest ih =>
      have hp : ph p = .ok () := hph p (List.mem_cons_self p rest)
      have hrest := ih fun q hq => hph q (List.mem_cons_of_mem p hq)
      simp only [generateVideos,
        generateSingleVideo_ok hfApiKey hf ph tempDir jobId p hp, hrest,
        List.map_cons]

/-- C7 witness: two cues, the first failing at the Hugging Face call, still
produce the two clip paths in order. -/
theorem clip_stage_length_and_order_witness :
    generateVideos true
      (fun q => if q.index = 0 then .error "HF timeout" else .ok ())
      (fun _ => .ok ()) "./temp" "j" [⟨0, "a", 10⟩, ⟨1, "b", 10⟩] =
      .ok ["./temp/j_clip_0.mp4", "./temp/j_clip_1.mp4"] := by
  rw [(clip_stage_length_and_order true
    (fun q => if q.index = 0 then .error "HF timeout" else .ok ())
    (fun _ => .ok ()) "./temp" "j" [⟨0, "a", 10⟩, ⟨1, "b", 10⟩]
    (fun q _ => rfl)).1]
  rfl

/-- The full behaviour of a successful `validateScriptData` run: both array
fields come back non-empty, and the returned script is the input script
when truthy and the default string otherwise. -/
theorem validateScriptData_ok_spec (data : RawScriptData)
    (v : ValidatedScriptData) (h : validateScriptData data = .ok v) :
    v.visual_prompts ≠ [] ∧ v.timestamps ≠ [] ∧
      v.script = (if data.script.truthy then data.script
        else .str "Generated video content.") := by
  obtain ⟨sv, ov, ot⟩ := data
  have hvp : (match ov with
      | some l => if l = [] then
          [({ index := 0, prompt := "Cinematic video scene",
              duration := 10 } : VisualPrompt)]
        else l
      | none =>
          [({ index := 0, prompt := "Cinematic video scene",
              duration := 10 } : VisualPrompt)]) ≠ [] := by
    cases ov with
    | none => simp
    | some l => by_cases hl : l = [] <;> simp [hl]
  cases ot with
  | none =>
      simp only [validateScriptData] at h
      cases hsub : jsSubstring
          (if sv.truthy then sv else .str "Generated video content.")
          0 100 with
      | ok t =>
          rw [hsub] at h
          injection h with hv
          subst hv
          exact ⟨hvp, by simp, rfl⟩
      | error e =>
          rw [hsub] at h
          simp at h
  | some l =>
      simp only [validateScriptData] at h
      by_cases hl : l = []
      · subst hl
        rw [if_pos rfl] at h
        cases hsub : jsSubstring
            (if sv.truthy then sv else .str "Generated video content.")
            0 100 with
        | ok t =>
            rw [hsub] at h
            injection h with hv
            subst hv
            exact ⟨hvp, by simp, rfl⟩
        | error e =>
            rw [hsub] at h
            simp at h
      · rw [if_neg hl] at h
        injection h with hv
        subst hv
        exact ⟨hvp, hl, rfl⟩

/-- C10 counterexample: the source's `if (!data.script)` keeps any TRUTHY
value, so a parsed object whose script is the JSON number 42 (with
non-empty arrays) validates successfully, yet its script field is not a
non-empty string. -/
theorem validate_nonstring_script_counterexample :
    validateScriptData
      { script := .num 42,
        visual_prompts := some [{ index := 0, prompt := "scene", duration := 5 }],
        timestamps := some [{ start := 0, «end» := 5, text := "hi" }] } =
      .ok { script := .num 42,
            visual_prompts := [{ index := 0, prompt := "scene", duration := 5 }],
            timestamps := [{ start := 0, «end» := 5, text := "hi" }] } ∧
    (JsValue.num 42).isNonEmptyString = false := by
  constructor
  · rfl
  · rfl

/-- C10 amended: when validation returns (it throws a `TypeError` only if a
truthy non-string script meets a missing/empty timestamps field), both
array fields are non-empty; the script field is defaulted to the non-empty
default string whenever the incoming script is falsy (missing, null,
false, 0, empty string), and is a non-empty string whenever the incoming
script was a string — but a truthy non-string script is kept unvalidated,
so the script field need not be a string.  Every script object the stage
hands downstream still has at least one visual cue and at least one
subtitle cue. -/
theorem validate_script_invariants_amended :
    (∀ (data : RawScriptData) (v : ValidatedScriptData),
      validateScriptData data = .ok v →
        v.visual_prompts ≠ [] ∧ v.timestamps ≠ [] ∧
        (data.script.truthy = false →
          v.script = .str "Generated video content.") ∧
        (∀ s, data.script = .str s → v.script.isNonEmptyString = true)) ∧
    (∀ (configured : Bool) (prompt : String) (att : ScriptAttempt),
      ∃ v, generateScript configured prompt att = .ok v ∧
        v.visual_prompts ≠ [] ∧ v.timestamps ≠ []) := by
  have hok := validateScriptData_ok_spec
  constructor
  · intro data v h
    obtain ⟨h1, h2, h3⟩ := hok data v h
    refine ⟨h1, h2, ?_, ?_⟩
    · intro hfalsy
      rw [h3, hfalsy]
      rfl
    · intro s hs
      rw [h3, hs]
      by_cases hempty : s = ""
      · subst hempty
        rfl
      · rw [show (JsValue.str s).truthy = true by
          simp [JsValue.truthy, hempty]]
        simp [JsValue.isNonEmptyString, hempty]
  · intro configured prompt att
    have hfb : (createFallbackScript prompt).toValidated.visual_prompts ≠ [] ∧
        (createFallbackScript prompt).toValidated.timestamps ≠ [] := by
      constructor <;> simp [createFallbackScript, ScriptData.toValidated]
    cases configured with
    | false => exact ⟨_, rfl, hfb.1, hfb.2⟩
    | true =>
        cases att with
        | callFailed m => exact ⟨_, rfl, hfb.1, hfb.2⟩
        | parseFailed =>
            cases h : validateScriptData
                (rawOfScriptData (createFallbackScript prompt)) with
            | ok v =>
                obtain ⟨h1, h2, _⟩ := hok _ v h
                exact ⟨v, by simp [generateScript, h], h1, h2⟩
            | error e =>
                exact ⟨_, by simp [generateScript, h], hfb.1, hfb.2⟩
        | parsed d =>
            cases h : validateScriptData d with
            | ok v =>
                obtain ⟨h1, h2, _⟩ := hok d v h
                exact ⟨v, by simp [generateScript, h], h1, h2⟩
            | error e =>
                exact ⟨_, by simp [generateScript, h], hfb.1, hfb.2⟩

/-- C10 amended witness: a wholly malformed object (missing script,
non-array cue fields) validates to the defaults, whose cue lists are
non-empty. -/
theorem validate_script_invariants_amended_witness :
    ([({ index := 0, prompt := "Cinematic video scene", duration := 10 } :
        VisualPrompt)] : List VisualPrompt) ≠ [] ∧
    ([({ start := 0, «end» := 10, text := "Generated video content." } :
        TimestampSegment)] : List TimestampSegment) ≠ [] := by
  have h := (validate_script_invariants_amended.1
    { script := .undefined, visual_prompts := none, timestamps := none }
    { script := .str "Generated video content.",
      visual_prompts :=
        [{ index := 0, prompt := "Cinematic video scene", duration := 10 }],
      timestamps :=
        [{ start := 0, «end» := 10, text := "Generated video content." }] }
    rfl)
  exact ⟨h.1, h.2.1⟩

/-! ## Publish stage (`PublisherService.uploadToSocial`)

Each platform upload is wrapped in its own try/catch: a rejection only
skips that platform's key in the returned `uploadUrls`.  The per-platform
upload outcomes are passed explicitly. -/

/-- `PublisherService.uploadToSocial(videoPath, title, description, tags,
uploadToYoutube, uploadToTiktok)`. -/
def uploadToSocial (ytResult ttResult : Except String String)
    (uploadToYoutube uploadToTiktok : Bool) : UploadUrls :=
  let uploadUrls : UploadUrls := {}
  let uploadUrls : UploadUrls :=
    if uploadToYoutube then
      match ytResult with
      | .ok url => { uploadUrls with youtube := some url }
      | .error _ => uploadUrls
    else uploadUrls
  let uploadUrls : UploadUrls :=
    if uploadToTiktok then
      match ttResult with
      | .ok url => { uploadUrls with tiktok := some url }
      | .error _ => uploadUrls
    else uploadUrls
  uploadUrls

/-- C8: with both platforms requested, one platform's failure neither
fails the job (the function still returns an `UploadUrls`) nor blocks the
other upload: the succeeding platform's URL is present and the failing
platform's key is absent, on either side. -/
theorem publish_per_platform_independence (e url : String) :
    uploadToSocial (.error e) (.ok url) true true =
      { youtube := none, tiktok := some url } ∧
    uploadToSocial (.ok url) (.error e) true true =
      { youtube := some url, tiktok := none } := by
  constructor <;> rfl

/-! ## Subtitle-path escaping (`EditorService.addAudioAndSubtitles`)

`const escapedSubtitlePath = subtitlePath.replace(/\\/g, '/')
.replace(/:/g, '\\:')` — backslashes are REPLACED by forward slashes
(not escaped), then every colon is escaped as `\:`. -/

/-- `.replace(/\\/g, '/')`: every backslash becomes a forward slash. -/
def replaceBackslashes (s : String) : String :=
  String.mk (s.data.map fun c => if c = '\\' then '/' else c)

/-- `.replace(/:/g, '\\:')`: every colon becomes backslash-colon. -/
def escapeColons (s : String) : String :=
  String.mk (s.data.flatMap fun c => if c = ':' then ['\\', ':'] else [c])

/-- The `escapedSubtitlePath` value interpolated into the
`-vf subtitles=...` filter argument. -/
def escapedSubtitlePath (subtitlePath : String) : String :=
  escapeColons (replaceBackslashes subtitlePath)

/-- Scanner for the amended property: every colon is immediately preceded
by a backslash, and every backslash is immediately followed by a colon —
i.e. colons occur only escaped and backslashes only as escapes. -/
def colonsEscapedOnly : List Char → Bool
  | [] => true
  | [c] => c ≠ '\\' && c ≠ ':'
  | c :: d :: rest =>
      if c = '\\' then d = ':' && colonsEscapedOnly rest
      else c ≠ ':' && colonsEscapedOnly (d :: rest)

theorem colonsEscapedOnly_cons (d : Char) (rest : List Char)
    (h1 : d ≠ '\\') (h2 : d ≠ ':') :
    colonsEscapedOnly (d :: rest) = colonsEscapedOnly rest := by
  cases rest with
  | nil => simp [colonsEscapedOnly, h1, h2]
  | cons e rest2 => simp [colonsEscapedOnly, h1, h2]

theorem colonsEscapedOnly_escape (rest : List Char) :
    colonsEscapedOnly ('\\' :: ':' :: rest) = colonsEscapedOnly rest := by
  simp [colonsEscapedOnly]

/-- C9 counterexample: a backslash in the subtitle path does not appear in
escaped form in the filter argument — it is replaced by a forward slash
and no backslash remains at all. -/
theorem escape_backslash_counterexample :
    escapedSubtitlePath "a\\b" = "a/b" ∧
      '\\' ∉ (escapedSubtitlePath "a\\b").data := by
  constructor
  · rfl
  · decide

/-- C9 amended: every colon of the path appears escaped as backslash-colon
in the filter argument, and the argument contains backslashes only as part
of such escapes; input backslashes are not escaped but replaced by forward
slashes beforehand. -/
theorem escaped_subtitle_path_well_escaped (subtitlePath : String) :
    colonsEscapedOnly (escapedSubtitlePath subtitlePath).data = true := by
  show colonsEscapedOnly
    ((subtitlePath.data.map fun c => if c = '\\' then '/' else c).flatMap
      fun c => if c = ':' then ['\\', ':'] else [c]) = true
  induction subtitlePath.data with
  | nil => rfl
  | cons c l ih =>
      by_cases hc : c = '\\'
      · subst hc
        rw [List.map_cons, if_pos rfl, List.flatMap_cons,
          if_neg (by decide : ¬('/' = ':')), List.singleton_append,
          colonsEscapedOnly_cons '/' _ (by decide) (by decide)]
        exact ih
      · by_cases hc2 : c = ':'
        · subst hc2
          rw [List.map_cons, if_neg hc, List.flatMap_cons, if_pos rfl]
          show colonsEscapedOnly ('\\' :: ':' :: _) = true
          rw [colonsEscapedOnly_escape]
          exact ih
        · rw [List.map_cons, if_neg hc, List.flatMap_cons, if_neg hc2,
            List.singleton_append, colonsEscapedOnly_cons c _ hc hc2]
          exact ih

end VidGen
